import Mathlib

/-!
Shallow embedding of the `abhi-use-context` React example repository.

The repository consists of three context-provider/consumer pairs:

* `CountContext` / `CountProvider` (src/unnamed/part_001): `useState(100)`,
  exposes `value={{count, setCount}}`; consumed by `CompB`
  (src/src/CompB.jsx), which renders `<div>{count}</div>` and never calls
  the setter.
* `CollegeContext` / `CollegeProvider` (src/unnamed/part_000, second file):
  `useState("")`, a `useEffect(..., [])` that runs
  `fetch(url).then(r => r.json()).then(data => setJoke(data))` with no
  error handler, exposes `value={{ joke }}`; consumed by `CompA`
  (src/src/CompA.jsx), which renders a heading and, guarded by
  `joke.category && ...`, a `Category:` subheading.
* `ThemeContext` / `Navbar` (src/src/Components/Navbar.jsx): the consumer
  destructures `{theme, setTheme}` and a button toggles
  `theme === "light" ? "dark" : "light"`.
* `App` (src/unnamed/part_000, first file) renders
  `<CountProvider><CompB/></CountProvider>` and nothing else.

JavaScript values are modelled by `JSVal`; property access and object
destructuring follow JavaScript semantics (a `TypeError` on `undefined`
or `null`, `undefined` for a missing field, `undefined` for a property of
another primitive).  Rendered output is modelled by `Html`, with event
handlers recorded on elements.  The promise chain of the fetch effect is
modelled by its three possible outcomes.
-/

/-- A JavaScript value, as far as this repository needs one. -/
inductive JSVal where
  | undefined
  | null
  | bool (b : Bool)
  | num (n : Int)
  | str (s : String)
  | obj (fields : List (String × JSVal))
  | fn (name : String)

/-- The runtime error a consumer can hit: destructuring `undefined`/`null`. -/
inductive JSErr where
  | typeError
deriving DecidableEq, Repr

/-- JavaScript truthiness, used by the `&&` guard in `CompA`. -/
def truthy : JSVal → Bool
  | .undefined => false
  | .null => false
  | .bool b => b
  | .num n => n != 0
  | .str s => s != ""
  | .obj _ => true
  | .fn _ => true

/-- How a value prints when interpolated into JSX text (`{count}`). -/
def jsToString : JSVal → String
  | .undefined => "undefined"
  | .null => "null"
  | .bool b => if b then "true" else "false"
  | .num n => toString n
  | .str s => s
  | .obj _ => "[object Object]"
  | .fn name => name

/-- First field of a JS object literal with the given name; `undefined` if absent. -/
def lookupField : List (String × JSVal) → String → JSVal
  | [], _ => .undefined
  | (k, v) :: rest, name => if k = name then v else lookupField rest name

/-- JavaScript property access / single-field destructuring: throws a
`TypeError` on `undefined` and `null`, returns the field of an object
(`undefined` if missing), and `undefined` for any other primitive
(e.g. `"".category`). -/
def getProp : JSVal → String → Except JSErr JSVal
  | .undefined, _ => .error .typeError
  | .null, _ => .error .typeError
  | .obj fields, name => .ok (lookupField fields name)
  | _, _ => .ok .undefined

/-- An event handler attached in JSX: which exposed setter it would call,
with which argument. -/
inductive Handler where
  | setCountH (v : Int)
  | setThemeH (v : JSVal)

/-- Rendered output: text nodes and elements carrying their handlers. -/
inductive Html where
  | text (s : String)
  | elem (tag : String) (handlers : List Handler) (children : List Html)

/-- All handlers reachable in a rendered tree. -/
def handlersOf : Html → List Handler
  | .text _ => []
  | .elem _ hs cs => hs ++ (cs.attach.map (fun c => handlersOf c.1)).flatten
decreasing_by
  have h := List.sizeOf_lt_of_mem c.2
  simp only [Html.elem.sizeOf_spec]
  omega

/-- `createContext()` is called with no argument in every context file, so
a consumer outside any provider reads `undefined`. -/
def contextDefault : JSVal := .undefined

/-! ### CountContext (src/unnamed/part_001) and CompB (src/src/CompB.jsx) -/

/-- `useState(100)`: the counter's initial state. -/
def countInit : Int := 100

/-- The `setCount` state updater: replaces the stored state with its
argument verbatim. -/
def setCount (v _s : Int) : Int := v

/-- The object `CountProvider` passes as `value={{count, setCount}}`. -/
def countCtx (count : Int) : JSVal :=
  .obj [("count", .num count), ("setCount", .fn "setCount")]

/-- `CompB`: destructures `{count, setCount}` from the context and renders
`<div>{count}</div>` with no handlers. -/
def CompB (ctx : JSVal) : Except JSErr Html := do
  let count ← getProp ctx "count"
  let _setCount ← getProp ctx "setCount"
  pure (.elem "div" [] [.text (jsToString count)])

/-! ### CollegeContext (src/unnamed/part_000, second file) and CompA -/

/-- `useState("")`: the joke's initial state, the empty-string placeholder. -/
def jokeInit : JSVal := .str ""

/-- The `setJoke` state updater: replaces the stored state verbatim. -/
def setJoke (v _s : JSVal) : JSVal := v

/-- The object `CollegeProvider` passes as `value={{ joke }}`. -/
def collegeCtx (joke : JSVal) : JSVal := .obj [("joke", joke)]

/-- The three ways the effect's promise chain
`fetch(url).then(r => r.json()).then(data => setJoke(data))` can go:
the request resolves and the body parses to `data`, the request itself
rejects, or `response.json()` rejects on a malformed body. -/
inductive FetchOutcome where
  | success (data : JSVal)
  | networkError
  | malformedJson

/-- Running the promise chain: the value passed to `setJoke` (if the chain
reaches the second `.then`), paired with whether the chain ends in an
unhandled rejection — there is no `.catch` in the source, so every
failure is unhandled and never reaches the setter. -/
def fetchChain : FetchOutcome → Option JSVal × Bool
  | .success d => (some d, false)
  | .networkError => (none, true)
  | .malformedJson => (none, true)

/-- The `setJoke` calls made during one mount: the effect runs once
(empty dependency array) and fires the chain once. -/
def jokeSetterCalls (o : FetchOutcome) : List JSVal := (fetchChain o).1.toList

/-- The sequence of values the joke state takes within one mount, given
the fetch outcome: the initial placeholder followed by each setter call's
replacement. -/
def jokeHistory (o : FetchOutcome) : List JSVal :=
  List.scanl (fun s v => setJoke v s) jokeInit (jokeSetterCalls o)

/-- The dependency array of the `useEffect` is the literal `[]`: it has no
entries, so the per-dependency change flags React would compare are the
empty list. -/
def collegeEffectDepChanges : List Bool := []

/-- Whether an effect re-runs on render `i` of a mount: always on the
first render, afterwards only if some dependency changed. -/
def effectRunsOnRender (depChanges : List Bool) : Nat → Bool
  | 0 => true
  | _ + 1 => depChanges.any id

/-- The JSX expression `v && h` used as a child: renders `h` when `v` is
truthy; a falsy `v` itself becomes the child, and React renders nothing
for it unless it is a number. -/
def renderAnd (v : JSVal) (h : Html) : List Html :=
  if truthy v then [h]
  else match v with
    | .num n => [.text (toString n)]
    | _ => []

/-- `CompA`: destructures `{joke}` from the context and renders the
heading plus the guarded `Category:` subheading. -/
def CompA (ctx : JSVal) : Except JSErr Html := do
  let joke ← getProp ctx "joke"
  let cat ← getProp joke "category"
  pure (.elem "div" []
    ([.elem "h1" [] [.text "Joke of the day"]] ++
      renderAnd cat (.elem "h2" [] [.text ("Category: " ++ jsToString cat)])))

/-! ### ThemeContext consumer (src/src/Components/Navbar.jsx) -/

/-- The toggle expression `theme === "light" ? "dark" : "light"` on the
button's click handler. -/
def toggleTheme : JSVal → JSVal
  | .str "light" => .str "dark"
  | _ => .str "light"

/-- `Navbar`: destructures `{theme, setTheme}` and renders the heading and
the toggle button, whose handler calls `setTheme` with the toggled theme. -/
def Navbar (ctx : JSVal) : Except JSErr Html := do
  let theme ← getProp ctx "theme"
  let _setTheme ← getProp ctx "setTheme"
  pure (.elem "div" []
    [.elem "h1" [] [.text (jsToString theme ++ " MODE")],
     .elem "button" [.setThemeH (toggleTheme theme)] [.text "Toggle Theme"]])

/-! ### App (src/unnamed/part_000, first file) -/

/-- `App` renders `<CountProvider><CompB/></CountProvider>`: the provider
contributes no markup of its own, so the page is `CompB` rendered with the
provider's context value at the given counter state. -/
def AppRender (count : Int) : Except JSErr Html := CompB (countCtx count)

/-- The handlers present anywhere in a render result (none if rendering
threw). -/
def handlersOfRender : Except JSErr Html → List Handler
  | .ok h => handlersOf h
  | .error _ => []

/-- The `setCount` arguments some handler in the as-built `App` tree could
supply. -/
def appCountCalls (count : Int) : List Int :=
  (handlersOfRender (AppRender count)).filterMap
    (fun h => match h with | .setCountH v => some v | _ => none)

/-- The sequence of values the counter state takes given a list of
`setCount` calls. -/
def countHistory (calls : List Int) : List Int :=
  List.scanl (fun s v => setCount v s) countInit calls

/-- The field names of an exposed context object literal. -/
def fieldNames : JSVal → List String
  | .obj fields => fields.map Prod.fst
  | _ => []

/-! ## Theorems for the claims -/

/-- Helper: a rendered tree consisting of one element with no handlers and
text children carries no handlers. -/
theorem handlersOf_elem_text (tag s : String) :
    handlersOf (.elem tag [] [.text s]) = [] := by
  simp [handlersOf]

/-- Claim C1: on every mount of `CountProvider`, before any setter call
the exposed `count` equals 100, and `CompB` rendered inside it displays
`100`. -/
theorem C1_initial_count_is_100 :
    countHistory [] = [100] ∧
    getProp (countCtx countInit) "count" = .ok (.num 100) ∧
    CompB (countCtx countInit) = .ok (.elem "div" [] [.text "100"]) :=
  ⟨rfl, rfl, rfl⟩

/-- Claim C2, counterexample: `CollegeProvider` passes `value={{ joke }}`,
so its exposed context object has the single field `joke` and no setter
field — the claim that every provider exposes a `{value, setValue}` pair
fails on `CollegeProvider`. -/
theorem C2_college_no_setter_exposed :
    fieldNames (collegeCtx jokeInit) = ["joke"] ∧
    "setJoke" ∉ fieldNames (collegeCtx jokeInit) := by
  refine ⟨rfl, ?_⟩
  decide

/-- Claim C2, amended: `CountProvider` exposes the `{count, setCount}`
pair, but `CollegeProvider` exposes only the `joke` value — its setter is
not exposed through the context channel. -/
theorem C2_exposed_context_fields (s : Int) (j : JSVal) :
    fieldNames (countCtx s) = ["count", "setCount"] ∧
    fieldNames (collegeCtx j) = ["joke"] :=
  ⟨rfl, rfl⟩

/-- Claim C3: `setCount v` replaces the stored state with `v` verbatim,
and the consumer `CompB` subsequently reads and displays `v`. -/
theorem C3_setter_replaces_verbatim (v s : Int) :
    setCount v s = v ∧
    getProp (countCtx (setCount v s)) "count" = .ok (.num v) ∧
    CompB (countCtx (setCount v s)) = .ok (.elem "div" [] [.text (toString v)]) :=
  ⟨rfl, rfl, rfl⟩

/-- Claim C4: within one mount of `CollegeProvider`, when the fetch
succeeds with payload `d` the joke state goes exactly
`["" placeholder, d]` — one transition, nothing after it — and the
effect's empty dependency array makes it run on the first render only. -/
theorem C4_joke_transitions_once (d : JSVal) (i : Nat) :
    jokeHistory (.success d) = [JSVal.str "", d] ∧
    effectRunsOnRender collegeEffectDepChanges 0 = true ∧
    effectRunsOnRender collegeEffectDepChanges (i + 1) = false :=
  ⟨rfl, rfl, rfl⟩

/-- Claim C5: `createContext()` is called with no default, so a consumer
rendered outside any provider destructures `undefined` and throws a
`TypeError`; the render result is the uncaught error for both `CompA` and
`CompB`. -/
theorem C5_consumer_without_provider_throws :
    contextDefault = .undefined ∧
    CompA contextDefault = .error .typeError ∧
    CompB contextDefault = .error .typeError :=
  ⟨rfl, rfl, rfl⟩

/-- Claim C6: the fetch chain has no `.catch`; on a failed request or
malformed JSON the rejection is unhandled, `setJoke` is never called, the
joke state stays at the placeholder, and the exposed context object still
holds only the placeholder `joke` field (no error value). -/
theorem C6_failure_leaves_placeholder (o : FetchOutcome)
    (h : o = .networkError ∨ o = .malformedJson) :
    jokeSetterCalls o = [] ∧
    jokeHistory o = [jokeInit] ∧
    (fetchChain o).2 = true ∧
    collegeCtx jokeInit = .obj [("joke", .str "")] := by
  rcases h with rfl | rfl
  · exact ⟨rfl, rfl, rfl, rfl⟩
  · exact ⟨rfl, rfl, rfl, rfl⟩

/-- Witness for C6 at the concrete outcome `networkError`. -/
theorem C6_failure_leaves_placeholder_witness :
    jokeSetterCalls .networkError = [] ∧
    jokeHistory .networkError = [jokeInit] ∧
    (fetchChain .networkError).2 = true ∧
    collegeCtx jokeInit = .obj [("joke", .str "")] :=
  C6_failure_leaves_placeholder .networkError (Or.inl rfl)

/-- Claim C7: with the fetch resolving to `{category: "Programming"}`,
the mount's final joke state is that payload and `CompA` rendered inside
the provider shows the heading `Category: Programming`. -/
theorem C7_renders_programming_category :
    jokeHistory (.success (.obj [("category", .str "Programming")])) =
      [jokeInit, .obj [("category", .str "Programming")]] ∧
    CompA (collegeCtx (.obj [("category", .str "Programming")])) =
      .ok (.elem "div" []
        [.elem "h1" [] [.text "Joke of the day"],
         .elem "h2" [] [.text "Category: Programming"]]) :=
  ⟨rfl, rfl⟩

/-- Claim C8: in the as-built `App` tree (`CountProvider` wrapping only
`CompB`) the rendered output carries no handlers at any counter state, so
no code path ever invokes `setCount`, the mount's counter history is
`[100]`, and the page always shows `100`. -/
theorem C8_count_invariantly_100 (s : Int) :
    handlersOfRender (AppRender s) = [] ∧
    appCountCalls s = [] ∧
    countHistory (appCountCalls countInit) = [100] ∧
    AppRender countInit = .ok (.elem "div" [] [.text "100"]) := by
  have hrender : AppRender s = .ok (.elem "div" [] [.text (jsToString (.num s))]) := rfl
  have hh : ∀ t : Int, handlersOfRender (AppRender t) = [] := by
    intro t
    show handlersOfRender (.ok (.elem "div" [] [.text (jsToString (.num t))])) = []
    simp [handlersOfRender, handlersOf_elem_text]
  have hc : ∀ t : Int, appCountCalls t = [] := by
    intro t
    show (handlersOfRender (AppRender t)).filterMap _ = []
    rw [hh t]
    rfl
  refine ⟨hh s, hc s, ?_, rfl⟩
  rw [hc countInit]
  rfl

/-- Claim C9: the joke state starts as the empty string, so before the
fetch resolves `joke.category` is a property access on a string — it
evaluates to `undefined` rather than throwing — the `&&` guard is falsy,
and `CompA` renders only the main heading. -/
theorem C9_placeholder_render_is_safe :
    jokeInit = .str "" ∧
    getProp jokeInit "category" = .ok .undefined ∧
    truthy .undefined = false ∧
    CompA (collegeCtx jokeInit) =
      .ok (.elem "div" [] [.elem "h1" [] [.text "Joke of the day"]]) :=
  ⟨rfl, rfl, rfl, rfl⟩

/-- Claim C10: the Navbar toggle `theme === "light" ? "dark" : "light"`
is an involution on `{"light", "dark"}` and its result stays in that
set. -/
theorem C10_toggle_involution (t : JSVal)
    (h : t = .str "light" ∨ t = .str "dark") :
    toggleTheme (toggleTheme t) = t ∧
    (toggleTheme t = .str "light" ∨ toggleTheme t = .str "dark") := by
  rcases h with rfl | rfl
  · exact ⟨rfl, Or.inr rfl⟩
  · exact ⟨rfl, Or.inl rfl⟩

/-- Witness for C10 at the concrete theme `"light"`. -/
theorem C10_toggle_involution_witness :
    toggleTheme (toggleTheme (.str "light")) = .str "light" ∧
    (toggleTheme (.str "light") = .str "light" ∨
      toggleTheme (.str "light") = .str "dark") :=
  C10_toggle_involution (.str "light") (Or.inl rfl)
